import Mathlib

/-!
Verification model of `src/hotspot/share/runtime/continuation.cpp` (the loom
preemption core): continuation entry records and mount tracking, pinning, the
safety predicates for asynchronous preemption, and `Continuation::try_preempt`.

Machine pointers (oops, program counters, stack addresses) are modelled as
natural-number identities; nullable pointers as `Option`.  External
collaborators (interpreter codelet tables, the code cache, the virtual-thread
heap fields, the JVMTI transition machinery, the freeze engine) are modelled as
read-only fields of an environment `Env`, exactly at the call boundary the
source uses.  The freeze engine is opaque per the spec (section 6): only the
status it returns is modelled; heap flags of the continuation (`done`,
`preempted`) are written only by that engine, never by the code in this file,
so they appear as read-only environment reads.  The potential null-blob
dereference in `is_safe_pc_to_preempt` is modelled by an `Option Bool` result,
`none` standing for the fault.
-/

/-- Oop identities: non-null heap object references. -/
abbrev Oop := Nat

/-- Status codes returned by the freeze machinery and by `try_preempt`.
The three named codes are the ones this file mentions; `other` stands for the
remaining documented failure codes of the external freeze engine. -/
inductive FreezeResult where
  | freeze_ok
  | freeze_pinned_native
  | freeze_not_mounted
  | other (code : Nat)
deriving DecidableEq, Repr

/-- Kinds of interpreter codelets distinguished by `is_safe_pc_to_preempt`. -/
inductive CodeletKind where
  | codelet_bytecode
  | codelet_safepoint_entry
  | codelet_other
deriving DecidableEq, Repr

/-- An interpreter codelet as consulted by `is_safe_pc_to_preempt`:
`bytecode` is the codelet's bytecode (negative when it has none, matching the
source's `codelet->bytecode() >= 0` guard), `kind` its codelet kind. -/
structure InterpreterCodelet where
  bytecode : Int
  kind : CodeletKind
deriving DecidableEq, Repr

/-- A code-cache blob, as consulted on the compiled-code branch of
`is_safe_pc_to_preempt`. -/
structure CodeBlob where
  is_safepoint_stub : Bool
deriving DecidableEq, Repr

/-- A continuation entry record: the marker pushed on a carrier thread's stack
at a mount point.  `cont` is the identity of the mounted continuation
(`cont_oop`), `pin_count` the pin counter, `entry_sp` the mount point's stack
coordinate. -/
structure ContinuationEntry where
  cont : Oop
  pin_count : Nat
  entry_sp : Nat
deriving DecidableEq, Repr

/-- Snapshot of a target `JavaThread` as read by the preemption core.
`entries` is the continuation-entry chain, innermost (`last_continuation`)
first; `stack_contains` models `is_in_full_stack`. -/
structure JavaThread where
  entries : List ContinuationEntry
  preempting : Bool
  has_last_Java_frame : Bool
  last_Java_pc : Nat
  has_pending_exception : Bool
  is_at_poll_safepoint : Bool
  vthread : Oop
  is_in_VTMS_transition : Bool
  is_suspended : Bool
  stack_contains : Nat → Bool

/-- The external collaborators and heap reads used by the preemption core. -/
structure Env where
  /-- `Interpreter::contains(pc)`. -/
  interpreter_contains : Nat → Bool
  /-- `Interpreter::codelet_containing(pc)`; `none` models a null codelet. -/
  codelet_containing : Nat → Option InterpreterCodelet
  /-- `Bytecodes::is_return(bc)`. -/
  is_return_bytecode : Int → Bool
  /-- `CodeCache::find_blob(pc)`; `none` models a null blob. -/
  find_blob : Nat → Option CodeBlob
  /-- `java_lang_VirtualThread::notify_jvmti_events()`. -/
  notify_jvmti_events : Bool
  /-- `java_lang_VirtualThread::vthread_scope()`. -/
  vthread_scope : Oop
  /-- `jdk_internal_vm_Continuation::done(cont)`. -/
  cont_done : Oop → Bool
  /-- `jdk_internal_vm_Continuation::is_preempted(cont)`; written only by the
  external freeze engine, read here for the debug assertion. -/
  cont_preempted : Oop → Bool
  /-- `jdk_internal_vm_Continuation::scope(cont)`; `none` models a null scope. -/
  cont_scope : Oop → Option Oop
  /-- `java_lang_VirtualThread::state(vthread) == RUNNING`. -/
  vthread_state_running : Oop → Bool
  /-- `java_lang_VirtualThread::is_instance(vthread)`. -/
  vthread_is_instance : Oop → Bool
  /-- `java_lang_VirtualThread::is_preemption_disabled(vthread)`. -/
  vthread_preemption_disabled : Oop → Bool
  /-- The status the opaque freeze engine (`freeze_preempt_entry()`) reports
  when dispatched on this snapshot. -/
  freeze_result : FreezeResult
  /-- Whether `JvmtiVTMSTransitionDisabler::start_VTMS_transition` succeeds. -/
  vtms_start_succeeds : Bool

/-- Calls made to external collaborators during one `try_preempt` run:
dispatches of the freeze entry point, `start_VTMS_transition` calls,
`finish_VTMS_transition` (rollback) calls, and
`rebind_to_jvmti_thread_state_of` calls. -/
structure Effects where
  freeze_calls : Nat
  vtms_starts : Nat
  vtms_finishes : Nat
  rebinds : Nat
deriving DecidableEq, Repr

/-- No collaborator call performed. -/
def noEffects : Effects := ⟨0, 0, 0, 0⟩

/-- Result of one `Continuation::try_preempt` run: the returned status, the
target thread afterwards, the global `fail_counter` afterwards, and the
collaborator calls performed. -/
structure PreemptOutcome where
  result : FreezeResult
  target : JavaThread
  fail_counter : Nat
  effects : Effects

/-- The scan loop of `Continuation::get_continuation_entry_for_continuation`:
walk the entry chain innermost-first and return the first entry whose
`cont_oop` equals the given continuation. -/
def find_entry (entries : List ContinuationEntry) (continuation : Oop) :
    Option ContinuationEntry :=
  match entries with
  | [] => none
  | e :: rest => if continuation = e.cont then some e else find_entry rest continuation

/-- `Continuation::get_continuation_entry_for_continuation`: null thread or
null continuation yields null; otherwise the innermost matching entry. -/
def get_continuation_entry_for_continuation (thread : Option JavaThread)
    (continuation : Option Oop) : Option ContinuationEntry :=
  match thread, continuation with
  | some t, some c => find_entry t.entries c
  | _, _ => none

/-- `is_on_stack` (static helper): returns false for a null entry and true
otherwise.  The membership of the entry in the thread's full stack is only a
debug-build assertion in the source (the stale-entry check is commented out),
so it does not influence the returned value. -/
def is_on_stack (thread : Option JavaThread) (entry : Option ContinuationEntry) :
    Bool :=
  match entry with
  | none => false
  | some _ => true

/-- `Continuation::is_continuation_mounted`. -/
def is_continuation_mounted (thread : Option JavaThread) (continuation : Option Oop) :
    Bool :=
  is_on_stack thread (get_continuation_entry_for_continuation thread continuation)

/-- Modelled from the spec: `is_mounted(thread, continuation)` of section 4.1 —
true iff an entry exists AND the physical stack region it marks is currently
part of the thread's live stack.  Stated only to compare against the source's
`is_continuation_mounted`. -/
def is_mounted_spec (thread : JavaThread) (continuation : Oop) : Bool :=
  match get_continuation_entry_for_continuation (some thread) (some continuation) with
  | none => false
  | some e => thread.stack_contains e.entry_sp

/-- `Continuation::is_continuation_done`. -/
def is_continuation_done (env : Env) (cont : Oop) : Bool :=
  env.cont_done cont

/-- `Continuation::is_continuation_preempted`. -/
def is_continuation_preempted (env : Env) (cont : Oop) : Bool :=
  env.cont_preempted cont

/-- `Continuation::continuation_scope`: null continuation has null scope. -/
def continuation_scope (env : Env) (continuation : Option Oop) : Option Oop :=
  match continuation with
  | none => none
  | some c => env.cont_scope c

/-- `is_safe_pc_to_preempt`.  In the interpreter: safe exactly at a non-null
codelet that is a return bytecode or a safepoint-entry codelet.  Outside the
interpreter the blob found for `pc` is dereferenced without a null check, so a
missing blob is a fault, modelled as `none`; otherwise safe exactly at a
safepoint-poll stub.  `target->is_at_poll_safepoint()` appears only in a log
statement in the source and does not affect the result. -/
def is_safe_pc_to_preempt (env : Env) (pc : Nat) (target : JavaThread) :
    Option Bool :=
  if env.interpreter_contains pc then
    match env.codelet_containing pc with
    | none => some false
    | some codelet =>
      if 0 ≤ codelet.bytecode ∧ env.is_return_bytecode codelet.bytecode = true then
        some true
      else if codelet.kind = CodeletKind.codelet_safepoint_entry then
        some true
      else
        some false
  else
    match env.find_blob pc with
    | none => none
    | some cb => some cb.is_safepoint_stub

/-- Modelled from the spec: the safe-pc policy exactly as section 4.3 item 4
words it — safe iff (a) in the interpreter at a return-bytecode handler or a
safepoint-entry codelet, or (b) in generated code at a safepoint-poll stub and
not already blocked waiting for the global safepoint.  Stated only to compare
against the source's `is_safe_pc_to_preempt`. -/
def safe_pc_spec (env : Env) (pc : Nat) (target : JavaThread) : Bool :=
  if env.interpreter_contains pc then
    match env.codelet_containing pc with
    | none => false
    | some codelet =>
      if (0 ≤ codelet.bytecode ∧ env.is_return_bytecode codelet.bytecode = true)
          ∨ codelet.kind = CodeletKind.codelet_safepoint_entry then
        true
      else
        false
  else
    match env.find_blob pc with
    | none => false
    | some cb => cb.is_safepoint_stub && !target.is_at_poll_safepoint

/-- `is_safe_vthread_to_preempt_for_jvmti`: trivially safe when JVMTI vthread
events are off; otherwise unsafe while the target is in a VTMS transition or
suspended. -/
def is_safe_vthread_to_preempt_for_jvmti (env : Env) (target : JavaThread) : Bool :=
  if env.notify_jvmti_events = false then
    true
  else if target.is_in_VTMS_transition = true then
    false
  else if target.is_suspended = true then
    false
  else
    true

/-- `is_safe_vthread_to_preempt`: the mounted vthread must be in state
RUNNING, be a VirtualThread instance (not in a mounting transition), not have
preemption disabled, and pass the JVMTI check. -/
def is_safe_vthread_to_preempt (env : Env) (target : JavaThread) (cont : Oop) :
    Bool :=
  if env.vthread_state_running target.vthread = false
      ∨ env.vthread_is_instance target.vthread = false
      ∨ env.vthread_preemption_disabled target.vthread = true then
    false
  else
    is_safe_vthread_to_preempt_for_jvmti env target

/-- `is_safe_to_preempt`: the early-return conjunction of the safety
predicates; `none` propagates a fault of the pc classifier. -/
def is_safe_to_preempt (env : Env) (target : JavaThread) (continuation : Oop)
    (is_vthread : Bool) : Option Bool :=
  if target.preempting = true then
    some false
  else if target.has_last_Java_frame = false then
    some false
  else if target.has_pending_exception = true then
    some false
  else
    match is_safe_pc_to_preempt env target.last_Java_pc target with
    | none => none
    | some false => some false
    | some true =>
      if is_vthread = true ∧ is_safe_vthread_to_preempt env target continuation = false then
        some false
      else
        some true

/-- Modelled from the spec: the classifier collaborator of section 6 reports,
for every program counter it is handed, whether it lies in interpreter code or
in generated code and whether it is a safepoint-poll stub; in particular the
last Java pc of a thread with a resolvable last frame resolves to a code blob
whenever it is outside the interpreter. -/
def classifier_total (env : Env) (target : JavaThread) : Prop :=
  target.has_last_Java_frame = true →
  env.interpreter_contains target.last_Java_pc = false →
  env.find_blob target.last_Java_pc ≠ none

/-- `Continuation::try_preempt` as a transformer of the target-thread snapshot
and the global `fail_counter`, also recording the collaborator calls made.
`none` models the fault path of the pc classifier.  The `JvmtiUnmountBeginMark`
constructor and destructor effects are inlined at the points the source runs
them (scope entry and every return). -/
def try_preempt (env : Env) (target : JavaThread) (continuation : Oop)
    (fail_counter : Nat) : Option PreemptOutcome :=
  match target.entries with
  | [] => some ⟨FreezeResult.freeze_not_mounted, target, fail_counter, noEffects⟩
  | ce :: _ =>
    if ce.cont ≠ continuation ∨ is_continuation_done env ce.cont = true then
      some ⟨FreezeResult.freeze_not_mounted, target, fail_counter, noEffects⟩
    else
      let is_vthread : Bool :=
        decide (continuation_scope env (some ce.cont) = some env.vthread_scope)
      match is_safe_to_preempt env target ce.cont is_vthread with
      | none => none
      | some false =>
        some ⟨FreezeResult.freeze_pinned_native, target, fail_counter, noEffects⟩
      | some true =>
        let do_VTMS_transition := is_vthread && env.notify_jvmti_events
        let starts : Nat := if do_VTMS_transition = true then 1 else 0
        if (!do_VTMS_transition || env.vtms_start_succeeds) = false then
          some ⟨FreezeResult.freeze_pinned_native, target, fail_counter,
                ⟨0, starts, 0, 0⟩⟩
        else
          if env.freeze_result ≠ FreezeResult.freeze_ok then
            some ⟨env.freeze_result, { target with preempting := false },
                  fail_counter + 1,
                  ⟨1, starts, (if do_VTMS_transition = true then 1 else 0), 0⟩⟩
          else
            some ⟨env.freeze_result, { target with preempting := true },
                  fail_counter,
                  ⟨1, starts, 0, (if do_VTMS_transition = true then 1 else 0)⟩⟩

/-- Maximum pin count. Modelled from the spec: a fixed maximum at which
`pin()` reports overflow (the source's counter is a machine unsigned int). -/
def pin_max : Nat := 2 ^ 32 - 1

/-- Modelled from the spec: `ContinuationEntry::pin` (declared in
`continuationEntry.inline.hpp`, not part of this translation unit) —
increments the pin count, failing when it would exceed the fixed maximum. -/
def ContinuationEntry.pin (e : ContinuationEntry) : Bool × ContinuationEntry :=
  if e.pin_count = pin_max then
    (false, e)
  else
    (true, { e with pin_count := e.pin_count + 1 })

/-- Modelled from the spec: `ContinuationEntry.unpin` (declared in
`continuationEntry.inline.hpp`, not part of this translation unit) —
decrements the pin count, failing when it is already zero. -/
def ContinuationEntry.unpin (e : ContinuationEntry) : Bool × ContinuationEntry :=
  if e.pin_count = 0 then
    (false, e)
  else
    (true, { e with pin_count := e.pin_count - 1 })

/-- `Continuation::pin`: trivially succeeds with no mounted continuation,
otherwise pins the innermost entry. -/
def Continuation.pin (current : JavaThread) : Bool × JavaThread :=
  match current.entries with
  | [] => (true, current)
  | ce :: rest =>
    let r := ce.pin
    (r.1, { current with entries := r.2 :: rest })

/-- `Continuation::unpin`: trivially succeeds with no mounted continuation,
otherwise unpins the innermost entry. -/
def Continuation.unpin (current : JavaThread) : Bool × JavaThread :=
  match current.entries with
  | [] => (true, current)
  | ce :: rest =>
    let r := ce.unpin
    (r.1, { current with entries := r.2 :: rest })

/-! ## Concrete snapshots for evaluation -/

/-- A baseline collaborator environment: no pc in the interpreter, every blob
a safepoint stub, JVMTI vthread events off, no continuation done, freeze
engine succeeding. -/
def exEnv : Env where
  interpreter_contains := fun _ => false
  codelet_containing := fun _ => none
  is_return_bytecode := fun _ => false
  find_blob := fun _ => some ⟨true⟩
  notify_jvmti_events := false
  vthread_scope := 100
  cont_done := fun _ => false
  cont_preempted := fun _ => false
  cont_scope := fun _ => none
  vthread_state_running := fun _ => true
  vthread_is_instance := fun _ => true
  vthread_preemption_disabled := fun _ => false
  freeze_result := FreezeResult.freeze_ok
  vtms_start_succeeds := true

/-- The baseline environment with the freeze engine reporting failure code 4
(one of the other documented codes, e.g. a monitor-pinned refusal). -/
def exEnvOther : Env := { exEnv with freeze_result := FreezeResult.other 4 }

/-- A baseline target thread snapshot with no continuation mounted. -/
def exThread : JavaThread where
  entries := []
  preempting := false
  has_last_Java_frame := true
  last_Java_pc := 0
  has_pending_exception := false
  is_at_poll_safepoint := false
  vthread := 7
  is_in_VTMS_transition := false
  is_suspended := false
  stack_contains := fun _ => true

/-- The baseline thread with continuation 1 mounted (one entry, pin count 0,
entry sp 5). -/
def exThreadMounted : JavaThread := { exThread with entries := [⟨1, 0, 5⟩] }

/-- The mounted thread already in a preemption attempt. -/
def exThreadPreempting : JavaThread := { exThreadMounted with preempting := true }

/-- The mounted thread with a stale entry: the marked stack region is not part
of the live stack. -/
def exThreadStale : JavaThread :=
  { exThreadMounted with stack_contains := fun _ => false }

/-- The baseline thread blocked at the global safepoint poll. -/
def exThreadAtPoll : JavaThread := { exThread with is_at_poll_safepoint := true }

/-- The thread with the innermost entry pinned up to the maximum. -/
def exThreadPinMax : JavaThread := { exThread with entries := [⟨1, pin_max, 5⟩] }

/-! ## Helper lemmas on the entry-chain scan -/

/-- The entry-chain scan misses exactly when no entry matches. -/
theorem find_entry_eq_none_iff (l : List ContinuationEntry) (c : Oop) :
    find_entry l c = none ↔ ∀ e ∈ l, e.cont ≠ c := by
  induction l with
  | nil => simp [find_entry]
  | cons a rest ih =>
    simp only [find_entry, List.mem_cons]
    by_cases h : c = a.cont
    · rw [if_pos h]
      constructor
      · intro hf; exact Option.noConfusion hf
      · intro hall; exact absurd h.symm (hall a (Or.inl rfl))
    · rw [if_neg h, ih]
      constructor
      · intro hall x hx
        rcases hx with hx | hx
        · subst hx; exact fun hc => h hc.symm
        · exact hall x hx
      · intro hall x hx
        exact hall x (Or.inr hx)

/-- A hit of the entry-chain scan is the first (innermost) matching entry. -/
theorem find_entry_eq_some (l : List ContinuationEntry) (c : Oop)
    (e : ContinuationEntry) (h : find_entry l c = some e) :
    e.cont = c ∧ ∃ pre post, l = pre ++ e :: post ∧ ∀ x ∈ pre, x.cont ≠ c := by
  induction l with
  | nil => exact Option.noConfusion h
  | cons a rest ih =>
    rw [find_entry] at h
    by_cases hc : c = a.cont
    · rw [if_pos hc] at h
      injection h with h
      subst h
      exact ⟨hc.symm, [], rest, rfl, by simp⟩
    · rw [if_neg hc] at h
      obtain ⟨he, pre, post, hl, hpre⟩ := ih h
      refine ⟨he, a :: pre, post, by simp [hl], ?_⟩
      intro x hx
      rcases List.mem_cons.mp hx with hx | hx
      · subst hx; exact fun hxc => hc hxc.symm
      · exact hpre x hx

/-! ## Claim theorems -/

/-- C1: if the target has no innermost continuation entry, or the entry's
continuation differs from the requested one, or the mounted continuation is
already done, `try_preempt` returns `freeze_not_mounted` with the target
thread and the failure counter unchanged and no collaborator call performed
(no freeze dispatched, no transition begun); since the state is returned
unchanged, every retry behaves the same way. -/
theorem C1_not_mounted_no_side_effects (env : Env) (target : JavaThread)
    (continuation : Oop) (fc : Nat)
    (h : target.entries = [] ∨
      ∃ ce rest, target.entries = ce :: rest ∧
        (ce.cont ≠ continuation ∨ is_continuation_done env ce.cont = true)) :
    try_preempt env target continuation fc =
      some ⟨FreezeResult.freeze_not_mounted, target, fc, noEffects⟩ := by
  rcases h with h | ⟨ce, rest, hent, hcond⟩
  · unfold try_preempt
    rw [h]
  · unfold try_preempt
    rw [hent]
    dsimp only
    rw [if_pos hcond]

/-- C1 witness: a concrete run on a thread with no mounted continuation. -/
theorem C1_witness :
    try_preempt exEnv exThread 1 0 =
      some ⟨FreezeResult.freeze_not_mounted, exThread, 0, noEffects⟩ :=
  C1_not_mounted_no_side_effects exEnv exThread 1 0 (Or.inl rfl)

/-- C2: on a mounted, not-done continuation whose safety predicates evaluate
to false, `try_preempt` returns `freeze_pinned_native` with the target thread
(mount state and preempting flag) and the failure counter unchanged, and no
collaborator call performed — in particular the freeze entry point is never
invoked, so the heap `preempted` flag is untouched. -/
theorem C2_unsafe_no_side_effects (env : Env) (target : JavaThread)
    (continuation : Oop) (fc : Nat) (ce : ContinuationEntry)
    (rest : List ContinuationEntry)
    (hent : target.entries = ce :: rest) (hmatch : ce.cont = continuation)
    (hdone : is_continuation_done env ce.cont = false)
    (hnosafe : is_safe_to_preempt env target ce.cont
        (decide (continuation_scope env (some ce.cont) = some env.vthread_scope)) =
        some false) :
    try_preempt env target continuation fc =
      some ⟨FreezeResult.freeze_pinned_native, target, fc, noEffects⟩ := by
  have hnc : ¬(ce.cont ≠ continuation ∨ is_continuation_done env ce.cont = true) := by
    rintro (hne | hd)
    · exact hne hmatch
    · rw [hdone] at hd
      exact absurd hd (by decide)
  unfold try_preempt
  rw [hent]
  dsimp only
  rw [if_neg hnc, hnosafe]

/-- C2 witness: a concrete run on a mounted thread already marked preempting
(first safety predicate false). -/
theorem C2_witness :
    try_preempt exEnv exThreadPreempting 1 0 =
      some ⟨FreezeResult.freeze_pinned_native, exThreadPreempting, 0, noEffects⟩ :=
  C2_unsafe_no_side_effects exEnv exThreadPreempting 1 0 ⟨1, 0, 5⟩ [] rfl rfl rfl
    (by decide)

/-- C6: `unpin` fails without taking the count below zero when the innermost
pin count is already zero; `pin` fails at the fixed maximum; with no
continuation mounted both succeed trivially with the thread unchanged. -/
theorem C6_pin_unpin_bounds :
    (∀ t : JavaThread, t.entries = [] →
        Continuation.pin t = (true, t) ∧ Continuation.unpin t = (true, t)) ∧
    (∀ (t : JavaThread) (ce : ContinuationEntry) (rest : List ContinuationEntry),
        t.entries = ce :: rest → ce.pin_count = 0 →
        Continuation.unpin t = (false, t)) ∧
    (∀ (t : JavaThread) (ce : ContinuationEntry) (rest : List ContinuationEntry),
        t.entries = ce :: rest → ce.pin_count = pin_max →
        Continuation.pin t = (false, t)) := by
  refine ⟨?_, ?_, ?_⟩
  · intro t h
    constructor
    · unfold Continuation.pin
      rw [h]
    · unfold Continuation.unpin
      rw [h]
  · intro t ce rest hent hzero
    unfold Continuation.unpin
    rw [hent]
    dsimp only
    unfold ContinuationEntry.unpin
    rw [if_pos hzero]
    rw [← hent]
  · intro t ce rest hent hmax
    unfold Continuation.pin
    rw [hent]
    dsimp only
    unfold ContinuationEntry.pin
    rw [if_pos hmax]
    rw [← hent]

/-- C6 witness: concrete pin underflow, pin overflow and unmounted no-op
runs. -/
theorem C6_witness :
    Continuation.pin exThread = (true, exThread) ∧
    Continuation.unpin exThread = (true, exThread) ∧
    Continuation.unpin exThreadMounted = (false, exThreadMounted) ∧
    Continuation.pin exThreadPinMax = (false, exThreadPinMax) :=
  ⟨(C6_pin_unpin_bounds.1 exThread rfl).1,
   (C6_pin_unpin_bounds.1 exThread rfl).2,
   C6_pin_unpin_bounds.2.1 exThreadMounted ⟨1, 0, 5⟩ [] rfl rfl,
   C6_pin_unpin_bounds.2.2 exThreadPinMax ⟨1, pin_max, 5⟩ [] rfl rfl⟩

/-- C10: a null thread or a null continuation yields no entry, independently
of any chain (so nothing is scanned or dereferenced), and mount queries with
null arguments report not-mounted; for non-null arguments the lookup returns
the first (innermost) entry whose continuation matches, or none when no entry
matches. -/
theorem C10_get_entry_null_and_first_match :
    (∀ c, get_continuation_entry_for_continuation none c = none) ∧
    (∀ t, get_continuation_entry_for_continuation (some t) none = none) ∧
    (∀ c, is_continuation_mounted none c = false) ∧
    (∀ t, is_continuation_mounted (some t) none = false) ∧
    (∀ t c, get_continuation_entry_for_continuation (some t) (some c) = none ↔
        ∀ e ∈ t.entries, e.cont ≠ c) ∧
    (∀ t c e, get_continuation_entry_for_continuation (some t) (some c) = some e →
        e.cont = c ∧ ∃ pre post, t.entries = pre ++ e :: post ∧
          ∀ x ∈ pre, x.cont ≠ c) := by
  refine ⟨?_, ?_, ?_, ?_, ?_, ?_⟩
  · intro c; cases c <;> rfl
  · intro t; rfl
  · intro c; cases c <;> rfl
  · intro t; rfl
  · intro t c
    exact find_entry_eq_none_iff t.entries c
  · intro t c e h
    exact find_entry_eq_some t.entries c e h

/-- C10 witness: a miss on the mounted thread for a different continuation and
a first-match decomposition for the mounted one. -/
theorem C10_witness :
    get_continuation_entry_for_continuation (some exThreadMounted) (some 2) = none ∧
    ∃ pre post, exThreadMounted.entries =
        pre ++ (⟨1, 0, 5⟩ : ContinuationEntry) :: post ∧ ∀ x ∈ pre, x.cont ≠ 1 :=
  ⟨(C10_get_entry_null_and_first_match.2.2.2.2.1 exThreadMounted 2).mpr (by decide),
   (C10_get_entry_null_and_first_match.2.2.2.2.2 exThreadMounted 1 ⟨1, 0, 5⟩ rfl).2⟩

/-- C4 counterexample: with a stale entry — the entry is present on the chain
but the stack region it marks is not part of the live stack — the source's
`is_continuation_mounted` still answers true, while the claimed predicate
(entry exists AND marked region live) is false. -/
theorem C4_counterexample :
    is_continuation_mounted (some exThreadStale) (some 1) = true ∧
    is_mounted_spec exThreadStale 1 = false :=
  ⟨rfl, rfl⟩

/-- C4 amended: `is_continuation_mounted` returns true exactly when an entry
record for the continuation exists on the thread's entry chain; membership of
the marked region in the live stack is only a debug-build assertion (the
stale-entry defense is commented out in the source) and does not affect the
result. -/
theorem C4_mounted_iff_entry_exists (t : JavaThread) (c : Oop) :
    is_continuation_mounted (some t) (some c) = true ↔
      ∃ e ∈ t.entries, e.cont = c := by
  constructor
  · intro htrue
    rcases h : get_continuation_entry_for_continuation (some t) (some c) with _ | e
    · rw [is_continuation_mounted, h] at htrue
      exact absurd htrue (by simp [is_on_stack])
    · obtain ⟨he, pre, post, hl, _⟩ := find_entry_eq_some t.entries c e h
      refine ⟨e, ?_, he⟩
      rw [hl]
      simp
  · rintro ⟨e, hmem, hec⟩
    rcases h : get_continuation_entry_for_continuation (some t) (some c) with _ | e2
    · exact absurd hec ((find_entry_eq_none_iff t.entries c).mp h e hmem)
    · rw [is_continuation_mounted, h]
      rfl

/-- C4 witness: the mounted thread reports mounted for its mounted
continuation. -/
theorem C4_witness :
    is_continuation_mounted (some exThreadMounted) (some 1) = true :=
  (C4_mounted_iff_entry_exists exThreadMounted 1).mpr ⟨⟨1, 0, 5⟩, by decide, rfl⟩

/-- C3 counterexample: a pc in generated code at a safepoint-poll stub while
the thread is already blocked at the global safepoint poll: the claim
classifies it unsafe, but the source classifier returns true — the
poll-blocked condition only appears in a log statement. -/
theorem C3_counterexample :
    is_safe_pc_to_preempt exEnv 0 exThreadAtPoll = some true ∧
    safe_pc_spec exEnv 0 exThreadAtPoll = false ∧
    exEnv.interpreter_contains 0 = false ∧
    exThreadAtPoll.is_at_poll_safepoint = true :=
  ⟨rfl, rfl, rfl, rfl⟩

/-- C3 amended: when the classifier returns a verdict (no fault), the verdict
is true exactly when (a) the pc lies in the interpreter at a codelet for a
return bytecode or at a safepoint-entry codelet, or (b) the pc lies in
generated code at a safepoint-poll stub; whether the thread is already blocked
waiting for the global safepoint does not enter the verdict. -/
theorem C3_safe_pc_characterization (env : Env) (pc : Nat) (target : JavaThread)
    (b : Bool) (h : is_safe_pc_to_preempt env pc target = some b) :
    b = true ↔
      ((env.interpreter_contains pc = true ∧
          ∃ cl, env.codelet_containing pc = some cl ∧
            ((0 ≤ cl.bytecode ∧ env.is_return_bytecode cl.bytecode = true) ∨
              cl.kind = CodeletKind.codelet_safepoint_entry)) ∨
        (env.interpreter_contains pc = false ∧
          ∃ cb, env.find_blob pc = some cb ∧ cb.is_safepoint_stub = true)) := by
  unfold is_safe_pc_to_preempt at h
  by_cases hi : env.interpreter_contains pc = true
  · rw [if_pos hi] at h
    rcases hcl : env.codelet_containing pc with _ | cl
    · rw [hcl] at h
      injection h with hb
      subst hb
      constructor
      · intro hfalse; exact absurd hfalse (by decide)
      · rintro (⟨_, cl2, hcl2, _⟩ | ⟨hfi, _⟩)
        · exact Option.noConfusion hcl2
        · rw [hi] at hfi; exact absurd hfi (by decide)
    · rw [hcl] at h
      dsimp only at h
      by_cases hret : 0 ≤ cl.bytecode ∧ env.is_return_bytecode cl.bytecode = true
      · rw [if_pos hret] at h
        injection h with hb
        subst hb
        exact iff_of_true rfl (Or.inl ⟨hi, cl, rfl, Or.inl hret⟩)
      · rw [if_neg hret] at h
        by_cases hkind : cl.kind = CodeletKind.codelet_safepoint_entry
        · rw [if_pos hkind] at h
          injection h with hb
          subst hb
          exact iff_of_true rfl (Or.inl ⟨hi, cl, rfl, Or.inr hkind⟩)
        · rw [if_neg hkind] at h
          injection h with hb
          subst hb
          refine iff_of_false (by decide) ?_
          rintro (⟨_, cl2, hcl2, hc⟩ | ⟨hfi, _⟩)
          · injection hcl2 with hcl2
            subst hcl2
            rcases hc with hc | hc
            · exact hret hc
            · exact hkind hc
          · rw [hi] at hfi; exact absurd hfi (by decide)
  · rw [if_neg hi] at h
    have hif : env.interpreter_contains pc = false := by
      cases hx : env.interpreter_contains pc
      · rfl
      · exact absurd hx hi
    rcases hcb : env.find_blob pc with _ | cb
    · rw [hcb] at h
      exact Option.noConfusion h
    · rw [hcb] at h
      injection h with hb
      subst hb
      constructor
      · intro hs
        exact Or.inr ⟨hif, cb, rfl, hs⟩
      · rintro (⟨hit, _⟩ | ⟨_, cb2, hcb2, hs⟩)
        · rw [hif] at hit; exact absurd hit (by decide)
        · injection hcb2 with hcb2
          subst hcb2
          exact hs

/-- C3 amended witness: a concrete safepoint-stub verdict obtained through the
characterization. -/
theorem C3_amended_witness :
    is_safe_pc_to_preempt exEnv 0 exThread = some true ∧ ((true : Bool) = true) :=
  ⟨rfl, (C3_safe_pc_characterization exEnv 0 exThread true rfl).mpr
    (Or.inr ⟨rfl, ⟨true⟩, rfl, rfl⟩)⟩

/-- Case analysis of a non-fault `try_preempt` run: either one of the refusal
paths, which dispatch no freeze and leave the target and the counter
unchanged, or a dispatched freeze on a mounted, matching, not-done, safe
snapshot, whose engine status is returned verbatim. -/
theorem try_preempt_cases (env : Env) (t : JavaThread) (c : Oop) (fc : Nat)
    (o : PreemptOutcome) (h : try_preempt env t c fc = some o) :
    (o.effects.freeze_calls = 0 ∧ o.target = t ∧ o.fail_counter = fc ∧
      (o.result = FreezeResult.freeze_not_mounted ∨
        o.result = FreezeResult.freeze_pinned_native)) ∨
    (o.effects.freeze_calls = 1 ∧ o.result = env.freeze_result ∧
      ∃ ce rest, t.entries = ce :: rest ∧ ce.cont = c ∧
        is_safe_to_preempt env t ce.cont
          (decide (continuation_scope env (some ce.cont) = some env.vthread_scope)) =
          some true) := by
  unfold try_preempt at h
  rcases hE : t.entries with _ | ⟨ce, rest⟩
  · rw [hE] at h
    dsimp only at h
    injection h with h
    subst h
    exact Or.inl ⟨rfl, rfl, rfl, Or.inl rfl⟩
  · rw [hE] at h
    dsimp only at h
    by_cases hcond : ce.cont ≠ c ∨ is_continuation_done env ce.cont = true
    · rw [if_pos hcond] at h
      injection h with h
      subst h
      exact Or.inl ⟨rfl, rfl, rfl, Or.inl rfl⟩
    · rw [if_neg hcond] at h
      push_neg at hcond
      rcases hsafe : is_safe_to_preempt env t ce.cont
          (decide (continuation_scope env (some ce.cont) = some env.vthread_scope))
          with _ | b
      · rw [hsafe] at h
        exact Option.noConfusion h
      · rw [hsafe] at h
        cases b
        · dsimp only at h
          injection h with h
          subst h
          exact Or.inl ⟨rfl, rfl, rfl, Or.inr rfl⟩
        · dsimp only at h
          by_cases htr : (!(decide (continuation_scope env (some ce.cont) =
              some env.vthread_scope) && env.notify_jvmti_events) ||
              env.vtms_start_succeeds) = false
          · rw [if_pos htr] at h
            injection h with h
            subst h
            exact Or.inl ⟨rfl, rfl, rfl, Or.inr rfl⟩
          · rw [if_neg htr] at h
            by_cases hfr : env.freeze_result ≠ FreezeResult.freeze_ok
            · rw [if_pos hfr] at h
              injection h with h
              subst h
              exact Or.inr ⟨rfl, rfl, ce, rest, rfl, hcond.1, hsafe⟩
            · rw [if_neg hfr] at h
              injection h with h
              subst h
              exact Or.inr ⟨rfl, rfl, ce, rest, rfl, hcond.1, hsafe⟩

/-- The outcome of the concrete run with the freeze engine reporting code 4:
try_preempt propagates that code, clears preempting, bumps the counter. -/
def exOutcomeOther : PreemptOutcome :=
  ⟨FreezeResult.other 4, { exThreadMounted with preempting := false }, 1, ⟨1, 0, 0, 0⟩⟩

/-- The outcome of the concrete run with the freeze engine succeeding. -/
def exOutcomeOk : PreemptOutcome :=
  ⟨FreezeResult.freeze_ok, { exThreadMounted with preempting := true }, 0, ⟨1, 0, 0, 0⟩⟩

/-- C5 counterexample: with the freeze engine reporting a documented failure
code other than the three named statuses (here code 4), `try_preempt` on a
mounted, preemptable continuation returns that code verbatim rather than one
of `freeze_ok`, `freeze_pinned_native`, `freeze_not_mounted`. -/
theorem C5_counterexample :
    (try_preempt exEnvOther exThreadMounted 1 0).map PreemptOutcome.result =
      some (FreezeResult.other 4) ∧
    FreezeResult.other 4 ≠ FreezeResult.freeze_ok ∧
    FreezeResult.other 4 ≠ FreezeResult.freeze_pinned_native ∧
    FreezeResult.other 4 ≠ FreezeResult.freeze_not_mounted :=
  ⟨rfl, by decide, by decide, by decide⟩

/-- C5 amended: every non-fault `try_preempt` run returns `freeze_not_mounted`
or `freeze_pinned_native` from its own checks, and otherwise the status the
freeze engine reported, verbatim; an engine status outside the three named
codes is propagated, not mapped onto them. -/
theorem C5_result_range (env : Env) (t : JavaThread) (c : Oop) (fc : Nat)
    (o : PreemptOutcome) (h : try_preempt env t c fc = some o) :
    o.result = FreezeResult.freeze_not_mounted ∨
    o.result = FreezeResult.freeze_pinned_native ∨
    o.result = env.freeze_result := by
  rcases try_preempt_cases env t c fc o h with ⟨_, _, _, hr | hr⟩ | ⟨_, hr, _⟩
  · exact Or.inl hr
  · exact Or.inr (Or.inl hr)
  · exact Or.inr (Or.inr hr)

/-- C5 amended witness: the concrete propagated-code run. -/
theorem C5_witness :
    exOutcomeOther.result = FreezeResult.freeze_not_mounted ∨
    exOutcomeOther.result = FreezeResult.freeze_pinned_native ∨
    exOutcomeOther.result = exEnvOther.freeze_result :=
  C5_result_range exEnvOther exThreadMounted 1 0 exOutcomeOther rfl

/-- C7: the freeze entry point is dispatched only on a snapshot where the
composite safety predicate holds, and that predicate is exactly the
conjunction of: not already in a preemption attempt, a resolvable last Java
frame, no exception in flight, a safe program counter, and — when the
continuation backs a virtual thread — the vthread state tag RUNNING on an
actual VirtualThread instance, preemption not disabled for it, and no
JVMTI-visible suspend/transition window; if any one conjunct fails the
composite predicate is false. -/
theorem C7_safety_conjunction :
    (∀ env t c fc o, try_preempt env t c fc = some o →
      0 < o.effects.freeze_calls →
      ∃ ce rest, t.entries = ce :: rest ∧
        is_safe_to_preempt env t ce.cont
          (decide (continuation_scope env (some ce.cont) = some env.vthread_scope)) =
          some true) ∧
    (∀ env (t : JavaThread) c v, is_safe_to_preempt env t c v = some true ↔
      (t.preempting = false ∧ t.has_last_Java_frame = true ∧
        t.has_pending_exception = false ∧
        is_safe_pc_to_preempt env t.last_Java_pc t = some true ∧
        (v = true → (env.vthread_state_running t.vthread = true ∧
          env.vthread_is_instance t.vthread = true ∧
          env.vthread_preemption_disabled t.vthread = false ∧
          is_safe_vthread_to_preempt_for_jvmti env t = true)))) := by
  constructor
  · intro env t c fc o h hpos
    rcases try_preempt_cases env t c fc o h with ⟨hz, _⟩ | ⟨_, _, ce, rest, hE, _, hsafe⟩
    · rw [hz] at hpos
      exact absurd hpos (by decide)
    · exact ⟨ce, rest, hE, hsafe⟩
  · intro env t c v
    unfold is_safe_to_preempt
    by_cases hp : t.preempting = true
    · rw [if_pos hp]
      constructor
      · intro hs; exact absurd hs (by decide)
      · rintro ⟨hp2, _⟩; rw [hp2] at hp; exact absurd hp (by decide)
    · have hpf : t.preempting = false := by
        cases hx : t.preempting
        · rfl
        · exact absurd hx hp
      rw [if_neg hp]
      by_cases hf : t.has_last_Java_frame = false
      · rw [if_pos hf]
        constructor
        · intro hs; exact absurd hs (by decide)
        · rintro ⟨_, hf2, _⟩; rw [hf2] at hf; exact absurd hf (by decide)
      · have hft : t.has_last_Java_frame = true := by
          cases hx : t.has_last_Java_frame
          · exact absurd hx hf
          · rfl
        rw [if_neg hf]
        by_cases he : t.has_pending_exception = true
        · rw [if_pos he]
          constructor
          · intro hs; exact absurd hs (by decide)
          · rintro ⟨_, _, he2, _⟩; rw [he2] at he; exact absurd he (by decide)
        · have hef : t.has_pending_exception = false := by
            cases hx : t.has_pending_exception
            · rfl
            · exact absurd hx he
          rw [if_neg he]
          rcases hpc : is_safe_pc_to_preempt env t.last_Java_pc t with _ | b
          · dsimp only
            constructor
            · intro hs; exact Option.noConfusion hs
            · rintro ⟨_, _, _, hpc2, _⟩; exact Option.noConfusion hpc2
          · cases b with
            | false =>
              dsimp only
              constructor
              · intro hs; exact absurd hs (by decide)
              · rintro ⟨_, _, _, hpc2, _⟩
                injection hpc2 with hpc2
                exact absurd hpc2 (by decide)
            | true =>
              dsimp only
              constructor
              · intro hs
                refine ⟨hpf, hft, hef, rfl, ?_⟩
                intro hv
                by_cases hvs : is_safe_vthread_to_preempt env t c = false
                · rw [if_pos ⟨hv, hvs⟩] at hs
                  exact absurd hs (by decide)
                · have hvt : is_safe_vthread_to_preempt env t c = true := by
                    cases hx : is_safe_vthread_to_preempt env t c
                    · exact absurd hx hvs
                    · rfl
                  unfold is_safe_vthread_to_preempt at hvt
                  by_cases hbad : env.vthread_state_running t.vthread = false ∨
                      env.vthread_is_instance t.vthread = false ∨
                      env.vthread_preemption_disabled t.vthread = true
                  · rw [if_pos hbad] at hvt
                    exact absurd hvt (by decide)
                  · rw [if_neg hbad] at hvt
                    push_neg at hbad
                    obtain ⟨h1, h2, h3⟩ := hbad
                    refine ⟨?_, ?_, ?_, hvt⟩
                    · cases hb : env.vthread_state_running t.vthread
                      · exact absurd hb h1
                      · rfl
                    · cases hb : env.vthread_is_instance t.vthread
                      · exact absurd hb h2
                      · rfl
                    · cases hb : env.vthread_preemption_disabled t.vthread
                      · rfl
                      · exact absurd hb h3
              · rintro ⟨_, _, _, _, hvimp⟩
                have hnc : ¬(v = true ∧ is_safe_vthread_to_preempt env t c = false) := by
                  rintro ⟨hv, hvf⟩
                  obtain ⟨h1, h2, h3, h4⟩ := hvimp hv
                  unfold is_safe_vthread_to_preempt at hvf
                  rw [if_neg ?_] at hvf
                  · rw [h4] at hvf
                    exact absurd hvf (by decide)
                  · rintro (hb | hb | hb)
                    · rw [h1] at hb; exact absurd hb (by decide)
                    · rw [h2] at hb; exact absurd hb (by decide)
                    · rw [h3] at hb; exact absurd hb (by decide)
                rw [if_neg hnc]

/-- C7 witness: a concrete dispatched freeze whose snapshot the theorem shows
safe, and a concrete evaluation of the composite predicate through the
conjunction. -/
theorem C7_witness :
    (∃ ce rest, exThreadMounted.entries = ce :: rest ∧
      is_safe_to_preempt exEnv exThreadMounted ce.cont
        (decide (continuation_scope exEnv (some ce.cont) = some exEnv.vthread_scope)) =
        some true) ∧
    is_safe_to_preempt exEnv exThreadMounted 1 false = some true :=
  ⟨C7_safety_conjunction.1 exEnv exThreadMounted 1 0 exOutcomeOk rfl (by decide),
   (C7_safety_conjunction.2 exEnv exThreadMounted 1 false).mpr
     ⟨rfl, rfl, rfl, rfl, fun hv => absurd hv (by decide)⟩⟩

/-- C8: for a dispatched freeze (mounted matching not-done continuation, safe
snapshot, JVMTI transition begun successfully or not needed): on a status
other than `freeze_ok` the preempting flag ends cleared, the failure counter
is incremented by exactly one, and a begun transition is rolled back (exactly
one finish call when one start call was made, none otherwise) with no rebind;
on `freeze_ok` the preempting flag is left set, the counter is unchanged, and
a begun transition is finalized by exactly one rebind call with no
rollback. -/
theorem C8_failure_rollback_success_finalize (env : Env) (target : JavaThread)
    (continuation : Oop) (fc : Nat) (ce : ContinuationEntry)
    (rest : List ContinuationEntry)
    (hent : target.entries = ce :: rest) (hmatch : ce.cont = continuation)
    (hdone : is_continuation_done env ce.cont = false)
    (hsafe : is_safe_to_preempt env target ce.cont
        (decide (continuation_scope env (some ce.cont) = some env.vthread_scope)) =
        some true)
    (htr : (!(decide (continuation_scope env (some ce.cont) = some env.vthread_scope)
        && env.notify_jvmti_events) || env.vtms_start_succeeds) = true) :
    (env.freeze_result ≠ FreezeResult.freeze_ok →
      try_preempt env target continuation fc =
        some ⟨env.freeze_result, { target with preempting := false }, fc + 1,
          ⟨1,
           (if (decide (continuation_scope env (some ce.cont) = some env.vthread_scope)
               && env.notify_jvmti_events) = true then 1 else 0),
           (if (decide (continuation_scope env (some ce.cont) = some env.vthread_scope)
               && env.notify_jvmti_events) = true then 1 else 0),
           0⟩⟩) ∧
    (env.freeze_result = FreezeResult.freeze_ok →
      try_preempt env target continuation fc =
        some ⟨FreezeResult.freeze_ok, { target with preempting := true }, fc,
          ⟨1,
           (if (decide (continuation_scope env (some ce.cont) = some env.vthread_scope)
               && env.notify_jvmti_events) = true then 1 else 0),
           0,
           (if (decide (continuation_scope env (some ce.cont) = some env.vthread_scope)
               && env.notify_jvmti_events) = true then 1 else 0)⟩⟩) := by
  have hnc : ¬(ce.cont ≠ continuation ∨ is_continuation_done env ce.cont = true) := by
    rintro (hne | hd)
    · exact hne hmatch
    · rw [hdone] at hd
      exact absurd hd (by decide)
  have htr2 : ¬((!(decide (continuation_scope env (some ce.cont) = some env.vthread_scope)
      && env.notify_jvmti_events) || env.vtms_start_succeeds) = false) := by
    intro hx
    rw [htr] at hx
    exact absurd hx (by decide)
  constructor
  · intro hfr
    unfold try_preempt
    rw [hent]
    dsimp only
    rw [if_neg hnc, hsafe]
    dsimp only
    rw [if_neg htr2, if_pos hfr]
  · intro hfr
    unfold try_preempt
    rw [hent]
    dsimp only
    rw [if_neg hnc, hsafe]
    dsimp only
    rw [if_neg htr2, if_neg (fun hx => hx hfr), hfr]

/-- C8 witness: the two concrete dispatched runs — engine failure code 4
(preempting cleared, counter bumped) and engine success (preempting left set,
counter unchanged); JVMTI events are off, so no transition calls. -/
theorem C8_witness :
    try_preempt exEnvOther exThreadMounted 1 0 = some exOutcomeOther ∧
    try_preempt exEnv exThreadMounted 1 0 = some exOutcomeOk := by
  constructor
  · exact (C8_failure_rollback_success_finalize exEnvOther exThreadMounted 1 0
      ⟨1, 0, 5⟩ [] rfl rfl rfl (by decide) (by decide)).1 (by decide)
  · exact (C8_failure_rollback_success_finalize exEnv exThreadMounted 1 0
      ⟨1, 0, 5⟩ [] rfl rfl rfl (by decide) (by decide)).2 rfl

/-- C9: under the collaborator contract `classifier_total` (the last Java pc
of a thread with a resolvable last frame resolves to a code blob whenever it
lies outside the interpreter), the pc classifier never reaches its null-blob
fault on the compiled-code branch, and the composite safety predicate is
total. -/
theorem C9_classifier_no_fault (env : Env) (target : JavaThread)
    (hwf : classifier_total env target) :
    (target.has_last_Java_frame = true →
      env.interpreter_contains target.last_Java_pc = false →
      is_safe_pc_to_preempt env target.last_Java_pc target ≠ none) ∧
    (∀ c v, is_safe_to_preempt env target c v ≠ none) := by
  have hpcaux : target.has_last_Java_frame = true →
      is_safe_pc_to_preempt env target.last_Java_pc target ≠ none := by
    intro hf
    unfold is_safe_pc_to_preempt
    by_cases hi : env.interpreter_contains target.last_Java_pc = true
    · rw [if_pos hi]
      rcases hcl : env.codelet_containing target.last_Java_pc with _ | cl
      · simp
      · dsimp only
        by_cases h1 : 0 ≤ cl.bytecode ∧ env.is_return_bytecode cl.bytecode = true
        · rw [if_pos h1]; simp
        · rw [if_neg h1]
          by_cases h2 : cl.kind = CodeletKind.codelet_safepoint_entry
          · rw [if_pos h2]; simp
          · rw [if_neg h2]; simp
    · rw [if_neg hi]
      have hif : env.interpreter_contains target.last_Java_pc = false := by
        cases hx : env.interpreter_contains target.last_Java_pc
        · rfl
        · exact absurd hx hi
      rcases hb : env.find_blob target.last_Java_pc with _ | cb
      · exact absurd hb (hwf hf hif)
      · simp
  constructor
  · intro hf _
    exact hpcaux hf
  · intro c v
    unfold is_safe_to_preempt
    by_cases h1 : target.preempting = true
    · rw [if_pos h1]; simp
    · rw [if_neg h1]
      by_cases h2 : target.has_last_Java_frame = false
      · rw [if_pos h2]; simp
      · rw [if_neg h2]
        by_cases h3 : target.has_pending_exception = true
        · rw [if_pos h3]; simp
        · rw [if_neg h3]
          have hf : target.has_last_Java_frame = true := by
            cases hx : target.has_last_Java_frame
            · exact absurd hx h2
            · rfl
          rcases hpc : is_safe_pc_to_preempt env target.last_Java_pc target with _ | b
          · exact absurd hpc (hpcaux hf)
          · cases b
            · dsimp only
              simp
            · dsimp only
              by_cases h4 : v = true ∧ is_safe_vthread_to_preempt env target c = false
              · rw [if_pos h4]; simp
              · rw [if_neg h4]; simp

/-- C9 witness: a concrete classified pc and a concrete total safety
evaluation under the contract. -/
theorem C9_witness :
    is_safe_pc_to_preempt exEnv 0 exThread ≠ none ∧
    is_safe_to_preempt exEnv exThread 1 false ≠ none :=
  ⟨(C9_classifier_no_fault exEnv exThread (by intro _ _; decide)).1 rfl rfl,
   (C9_classifier_no_fault exEnv exThread (by intro _ _; decide)).2 1 false⟩
